import Mathlib

/-!
Shallow embedding of `IntercoreComms_Mailbox/IntercoreComms_HighLevelApp/main_a7.c`.

The program is a single-threaded event-loop application: a periodic timer
sends a counted message to a companion real-time application, a socket
readiness callback reads replies and classifies a "reboot!!" sentinel, and
the top-level `main` restarts the whole `RunLoop` cycle whenever it ends
with the simulated-reboot status. External collaborators (the event loop
library, the socket transport, the logging sink) are modelled by explicit
result parameters and an action trace.
-/

/-- Exit codes of the application, mirroring the `ExitCode` enum
(main_a7.c lines 37-50). -/
inductive ExitCode where
  | success
  | termHandlerSigTerm
  | timerHandlerConsume
  | sendMsgSend
  | socketHandlerRecv
  | initEventLoop
  | initSendTimer
  | initConnection
  | initSetSockOpt
  | initRegisterIo
  | mainEventLoopFail
  | mainEventLoopSimReboot
deriving DecidableEq, Repr

/-- Numeric value of each exit code, as in the C enum. -/
def ExitCode.toNat : ExitCode → Nat
  | .success => 0
  | .termHandlerSigTerm => 1
  | .timerHandlerConsume => 2
  | .sendMsgSend => 3
  | .socketHandlerRecv => 4
  | .initEventLoop => 5
  | .initSendTimer => 6
  | .initConnection => 7
  | .initSetSockOpt => 8
  | .initRegisterIo => 9
  | .mainEventLoopFail => 10
  | .mainEventLoopSimReboot => 11

/-- `RECV_BUFF_SIZE` (main_a7.c line 30). -/
def RECV_BUFF_SIZE : Nat := 32

/-- The Linux `EINTR` errno value, used by `RunLoop` to tolerate interrupted
dispatcher waits (main_a7.c line 248). -/
def EINTR : Nat := 4

/-- ASCII bytes of the sentinel literal "reboot!!". -/
def rebootSentinel : List Nat := [114, 101, 98, 111, 111, 116, 33, 33]

/-- The sentinel as a C string: the literal bytes followed by the
terminating NUL byte. -/
def sentinelZ : List Nat := rebootSentinel ++ [0]

/-- Model of `strncmp(s1, s2, n) == 0`: compares at most `n` bytes, stops at
the first differing byte (result false) or at a NUL byte present in both
strings (result true). Bytes beyond the end of a list read as 0, matching
the NUL terminator of a C string. -/
def strncmpZero (s1 s2 : List Nat) : Nat → Bool
  | 0 => true
  | n + 1 =>
    let a := s1.headD 0
    let b := s2.headD 0
    if a ≠ b then false
    else if a = 0 then true
    else strncmpZero s1.tail s2.tail n

/-- Model of `MsgParseIsReboot` (main_a7.c lines 111-118): a null buffer or a
non-positive length never match; otherwise the result is
`strncmp(rxBuf, "reboot!!", (size_t)len) == 0`. The buffer is modelled as the
list of received bytes (`none` models a NULL pointer). -/
def MsgParseIsReboot (rxBuf : Option (List Nat)) (len : Int) : Bool :=
  match rxBuf with
  | none => false
  | some buf =>
    if len ≤ 0 then false
    else strncmpZero buf sentinelZ len.toNat

/-- Predicate written from the amended C1 claim: the classifier accepts a
non-null, positive-length payload iff the payload bytes agree with the
NUL-terminated sentinel "reboot!!\x00" at every position below
`min len 9` — a length-bounded C-string comparison (prefix-style), not a
length-exact one. -/
def amendedIsReboot (rxBuf : Option (List Nat)) (len : Int) : Bool :=
  match rxBuf with
  | none => false
  | some buf =>
    if len ≤ 0 then false
    else decide (∀ i, i < min len.toNat 9 → buf.getD i 0 = sentinelZ.getD i 0)

lemma getD_zero_eq_headD (l : List Nat) : l.getD 0 0 = l.headD 0 := by
  cases l <;> rfl

lemma tail_getD (l : List Nat) (i : Nat) : l.tail.getD i 0 = l.getD (i + 1) 0 := by
  cases l with
  | nil => rfl
  | cons h t => rfl

/-- Characterisation of a successful `strncmp`: the two strings agree at every
position `i < k` that is not shielded by an earlier NUL in `s2`. -/
lemma strncmpZero_true_iff :
    ∀ (k : Nat) (s1 s2 : List Nat),
      strncmpZero s1 s2 k = true ↔
        ∀ i, i < k → (∀ j, j < i → s2.getD j 0 ≠ 0) → s1.getD i 0 = s2.getD i 0 := by
  intro k
  induction k with
  | zero =>
    intro s1 s2
    simp [strncmpZero]
  | succ n ih =>
    intro s1 s2
    simp only [strncmpZero]
    by_cases hab : s1.headD 0 = s2.headD 0
    · by_cases h0 : s1.headD 0 = 0
      · rw [if_neg (not_not_intro hab), if_pos h0]
        simp only [true_iff]
        intro i hi hcond
        match i with
        | 0 => rw [getD_zero_eq_headD, getD_zero_eq_headD]; exact hab
        | Nat.succ i' =>
          exfalso
          apply hcond 0 (Nat.succ_pos i')
          rw [getD_zero_eq_headD, ← hab]
          exact h0
      · rw [if_neg (not_not_intro hab), if_neg h0]
        rw [ih s1.tail s2.tail]
        constructor
        · intro H i hi hcond
          match i with
          | 0 => rw [getD_zero_eq_headD, getD_zero_eq_headD]; exact hab
          | Nat.succ i' =>
            rw [← tail_getD, ← tail_getD]
            apply H i' (Nat.lt_of_succ_lt_succ hi)
            intro j hj
            rw [tail_getD]
            exact hcond (j + 1) (Nat.succ_lt_succ hj)
        · intro H i' hi' hcond'
          rw [tail_getD, tail_getD]
          apply H (i' + 1) (Nat.succ_lt_succ hi')
          intro j hj
          match j with
          | 0 =>
            rw [getD_zero_eq_headD, ← hab]
            exact h0
          | Nat.succ j' =>
            rw [← tail_getD]
            exact hcond' j' (Nat.lt_of_succ_lt_succ hj)
    · rw [if_pos hab]
      constructor
      · intro h
        exact absurd h (by simp)
      · intro H
        exfalso
        apply hab
        have h0 := H 0 (Nat.succ_pos n) (by intro j hj; exact absurd hj (Nat.not_lt_zero j))
        rw [getD_zero_eq_headD, getD_zero_eq_headD] at h0
        exact h0

/-- Specialisation to the NUL-terminated sentinel: bounded comparison against
"reboot!!\x00" succeeds iff the payload agrees with it below `min k 9`. -/
lemma strncmp_sentinel (k : Nat) (buf : List Nat) :
    strncmpZero buf sentinelZ k = true ↔
      ∀ i, i < min k 9 → buf.getD i 0 = sentinelZ.getD i 0 := by
  rw [strncmpZero_true_iff]
  constructor
  · intro H i hi
    apply H i (lt_of_lt_of_le hi (min_le_left _ _))
    intro j hj
    have hj8 : j < 8 := by
      have : i < 9 := lt_of_lt_of_le hi (min_le_right _ _)
      omega
    interval_cases j <;> decide
  · intro H i hik hcond
    by_cases hi9 : i < 9
    · exact H i (lt_min hik hi9)
    · exfalso
      apply hcond 8 (by omega)
      decide

/-- C1 (amended): `MsgParseIsReboot` rejects null buffers and non-positive
lengths, and otherwise performs a length-bounded C-string comparison against
the NUL-terminated sentinel "reboot!!\x00": it accepts iff the payload agrees
with it at every position below `min len 9`. In particular a non-empty
proper prefix of the sentinel matches, so the comparison is prefix-style,
not length-exact. -/
theorem c1_amended (rxBuf : Option (List Nat)) (len : Int) :
    MsgParseIsReboot rxBuf len = amendedIsReboot rxBuf len := by
  cases rxBuf with
  | none => rfl
  | some buf =>
    simp only [MsgParseIsReboot, amendedIsReboot]
    by_cases hl : len ≤ 0
    · rw [if_pos hl, if_pos hl]
    · rw [if_neg hl, if_neg hl]
      have h := strncmp_sentinel len.toNat buf
      cases hres : strncmpZero buf sentinelZ len.toNat with
      | true =>
        symm
        rw [decide_eq_true_eq]
        exact h.mp hres
      | false =>
        symm
        rw [decide_eq_false_iff_not]
        intro hP
        rw [h.mpr hP] at hres
        exact Bool.true_eq_false.mp hres

/-- C1 counterexample: the 6-byte payload "reboot", whose length differs
from 8, is nevertheless classified as the reboot sentinel, refuting the
length-exact claim. -/
theorem c1_counterexample :
    MsgParseIsReboot (some [114, 101, 98, 111, 111, 116]) 6 = true ∧
      decide ((6 : Int) = 8) = false := by
  decide

/-- Global mutable state of the process: the static `iter` counter inside
`SendMessageToRTApp`, the shared `exitCode`, and the resource handles
(`sockFd`, and whether `eventLoop`, `sendTimer`, `socketEventReg` hold
non-NULL values). -/
structure AppState where
  iter : Nat
  exitCode : ExitCode
  sockFd : Int
  eventLoopCreated : Bool
  sendTimerCreated : Bool
  socketRegCreated : Bool
deriving DecidableEq, Repr

/-- The state at cold process start (main_a7.c lines 52-56). -/
def initialAppState : AppState :=
  { iter := 0, exitCode := .success, sockFd := -1,
    eventLoopCreated := false, sendTimerCreated := false,
    socketRegCreated := false }

/-- The initialization steps attempted by `InitHandlers`, in program order. -/
inductive InitStep where
  | eventLoopCreate
  | sendTimerCreate
  | connect
  | setSockOpt
  | registerIo
deriving DecidableEq, Repr

/-- The effective cleanup operations of `CloseHandlers`: each release call is
recorded only when its handle refers to a resource that actually exists
(a NULL-handle release is a no-op). -/
inductive CleanupStep where
  | disposeTimer
  | unregisterIo
  | closeEventLoop
  | closeFd
deriving DecidableEq, Repr

/-- Observable actions of the process, used to build execution traces. -/
inductive TraceAction where
  | initStep (step : InitStep)
  | send (msg : List Char) (ok : Bool)
  | logReceived (n : Nat)
  | logRecvError
  | cleanup (c : CleanupStep)
  | logCloseError
  | closeEnter
  | rebootPause (secs : Nat)
deriving DecidableEq, Repr

/-- Zero-padded minimum-width-2 decimal rendering of `n`, the semantics of
the `%02d` conversion in `snprintf` (main_a7.c line 99). -/
def pad2 (n : Nat) : List Char :=
  let ds := Nat.toDigits 10 n
  if ds.length < 2 then '0' :: ds else ds

/-- The constant part of the outbound message text. -/
def txMessageStem : List Char := "hl-app-to-rt-app-adding".toList

/-- The outbound message formatted for counter value `n`:
`"hl-app-to-rt-app-adding%02d"` (main_a7.c line 99). -/
def txMessage (n : Nat) : List Char := txMessageStem ++ pad2 n

/-- Model of `SendMessageToRTApp` (main_a7.c lines 93-109): format the message
from the current counter, advance the counter modulo 100, then attempt the
`send`; on failure set the shared status to the send-failed value and return
(no retry). `sendOk` is the externally determined result of `send`. -/
def SendMessageToRTApp (s : AppState) (sendOk : Bool) : AppState × List TraceAction :=
  let msg := txMessage s.iter
  let s1 := { s with iter := (s.iter + 1) % 100 }
  if sendOk then (s1, [TraceAction.send msg true])
  else ({ s1 with exitCode := .sendMsgSend }, [TraceAction.send msg false])

/-- Model of `SendTimerEventHandler` (main_a7.c lines 80-88): a failed
`ConsumeEventLoopTimerEvent` sets the consume-failure status and returns;
otherwise the message is sent. -/
def SendTimerEventHandler (s : AppState) (consumeOk sendOk : Bool) :
    AppState × List TraceAction :=
  if consumeOk then SendMessageToRTApp s sendOk
  else ({ s with exitCode := .timerHandlerConsume }, [])

/-- Model of `SocketEventHandler` (main_a7.c lines 123-147): `none` models a
`recv` returning -1 (receive-failure status, return); otherwise the payload
is truncated to the 32-byte buffer, its byte count logged, and the buffer
classified; a sentinel match sets the simulated-reboot status. -/
def SocketEventHandler (s : AppState) (recvResult : Option (List Nat)) :
    AppState × List TraceAction :=
  match recvResult with
  | none => ({ s with exitCode := .socketHandlerRecv }, [TraceAction.logRecvError])
  | some payload =>
    let rxBuf := payload.take RECV_BUFF_SIZE
    let bytesReceived := rxBuf.length
    let s1 :=
      if MsgParseIsReboot (some rxBuf) (bytesReceived : Int) then
        { s with exitCode := .mainEventLoopSimReboot }
      else s
    (s1, [TraceAction.logReceived bytesReceived])

/-- Model of `TerminationHandler` (main_a7.c lines 71-75): the SIGTERM
handler performs a single write of the termination-request value into the
shared status and nothing else. -/
def TerminationHandler (s : AppState) : AppState :=
  { s with exitCode := .termHandlerSigTerm }

/-- Externally determined outcomes of the initialization steps: whether each
library call succeeds, and the descriptor returned by a successful
`Application_Connect`. -/
structure InitEnv where
  eventLoopOk : Bool
  sendTimerOk : Bool
  connectFd : Option Nat
  setSockOptOk : Bool
  registerIoOk : Bool
deriving DecidableEq, Repr

/-- Model of `InitHandlers` (main_a7.c lines 169-208): the steps run in
program order, each failing step returns its own exit code immediately
without attempting subsequent steps; handle variables are assigned exactly
when the corresponding call executes. Returns the updated state, the
returned exit code, and the attempted steps. -/
def InitHandlers (s : AppState) (env : InitEnv) :
    AppState × ExitCode × List TraceAction :=
  let s := { s with eventLoopCreated := env.eventLoopOk }
  if ¬ env.eventLoopOk then
    (s, .initEventLoop, [TraceAction.initStep .eventLoopCreate])
  else
    let s := { s with sendTimerCreated := env.sendTimerOk }
    if ¬ env.sendTimerOk then
      (s, .initSendTimer,
       [TraceAction.initStep .eventLoopCreate, TraceAction.initStep .sendTimerCreate])
    else
      match env.connectFd with
      | none =>
        ({ s with sockFd := -1 }, .initConnection,
         [TraceAction.initStep .eventLoopCreate, TraceAction.initStep .sendTimerCreate,
          TraceAction.initStep .connect])
      | some fd =>
        let s := { s with sockFd := (fd : Int) }
        if ¬ env.setSockOptOk then
          (s, .initSetSockOpt,
           [TraceAction.initStep .eventLoopCreate, TraceAction.initStep .sendTimerCreate,
            TraceAction.initStep .connect, TraceAction.initStep .setSockOpt])
        else
          let s := { s with socketRegCreated := env.registerIoOk }
          if ¬ env.registerIoOk then
            (s, .initRegisterIo,
             [TraceAction.initStep .eventLoopCreate, TraceAction.initStep .sendTimerCreate,
              TraceAction.initStep .connect, TraceAction.initStep .setSockOpt,
              TraceAction.initStep .registerIo])
          else
            (s, .success,
             [TraceAction.initStep .eventLoopCreate, TraceAction.initStep .sendTimerCreate,
              TraceAction.initStep .connect, TraceAction.initStep .setSockOpt,
              TraceAction.initStep .registerIo])

/-- Model of `CloseFdAndPrintError` (main_a7.c lines 215-223): a negative
descriptor is skipped; a failing `close` is logged, never escalated.
`closeOk` is the externally determined result of `close`. -/
def CloseFdAndPrintError (fd : Int) (closeOk : Bool) : List TraceAction :=
  if 0 ≤ fd then
    if closeOk then [TraceAction.cleanup .closeFd]
    else [TraceAction.cleanup .closeFd, TraceAction.logCloseError]
  else []

/-- Model of `CloseHandlers` (main_a7.c lines 228-236), recording the
effective cleanup operations in program order. `DisposeEventLoopTimer` lives
in `eventloop_timer_utilities.c`, which is not part of the sources here;
modelled from the spec: releasing the timer registration, a no-op on a NULL
handle. `EventLoop_UnregisterIo` and `EventLoop_Close` are opaque applibs
services, likewise modelled as no-ops on NULL handles. The descriptor close
uses the explicit `fd >= 0` guard of `CloseFdAndPrintError`. -/
def CloseHandlers (s : AppState) (closeOk : Bool) : List TraceAction :=
  (if s.sendTimerCreated then [TraceAction.cleanup .disposeTimer] else [])
    ++ (if s.socketRegCreated then [TraceAction.cleanup .unregisterIo] else [])
    ++ (if s.eventLoopCreated then [TraceAction.cleanup .closeEventLoop] else [])
    ++ CloseFdAndPrintError s.sockFd closeOk

/-- One observable outcome of a blocking `EventLoop_Run` call: a successful
dispatch of the timer callback (with the outcomes of its inner calls), a
successful dispatch of the socket callback (with the `recv` outcome), a
failed wait with the given `errno`, or a SIGTERM delivered around the wait. -/
inductive DispatchEvent where
  | timer (consumeOk sendOk : Bool)
  | socket (recvResult : Option (List Nat))
  | runFailed (errnoVal : Nat)
  | sigterm
deriving DecidableEq, Repr

/-- Effect of one `EventLoop_Run` return on the state (main_a7.c lines
245-251): handlers run and set the shared status; a failed wait sets the
dispatch-failure status unless `errno` is `EINTR`; a SIGTERM invokes the
termination handler. -/
def stepEvent (s : AppState) : DispatchEvent → AppState × List TraceAction
  | .timer consumeOk sendOk => SendTimerEventHandler s consumeOk sendOk
  | .socket recvResult => SocketEventHandler s recvResult
  | .runFailed errnoVal =>
    if errnoVal = EINTR then (s, [])
    else ({ s with exitCode := .mainEventLoopFail }, [])
  | .sigterm => (TerminationHandler s, [])

/-- The dispatch loop of `RunLoop` (main_a7.c lines 245-251): while the
shared status is the success value, block for the next event and process it.
The event script is finite; leftover events are not consumed once the loop
has exited. -/
def runEvents : AppState → List DispatchEvent → AppState × List TraceAction
  | s, [] => (s, [])
  | s, e :: es =>
    if s.exitCode = ExitCode.success then
      let st := stepEvent s e
      let rest := runEvents st.1 es
      (rest.1, st.2 ++ rest.2)
    else (s, [])

/-- Model of `RunLoop` (main_a7.c lines 239-265): run `InitHandlers`, assign
its result to the shared status, run the dispatch loop, then — once the loop
has exited — run `CloseHandlers` and, when the terminal status is the
simulated-reboot value, pause for the fixed 10-second window. Returns the
final state, the returned exit code (`none` when the finite event script is
exhausted while the loop is still blocked waiting), and the trace.
`postInitState` is the state right after `exitCode = InitHandlers()`
(main_a7.c line 243). -/
def postInitState (s : AppState) (env : InitEnv) : AppState :=
  { (InitHandlers s env).1 with exitCode := (InitHandlers s env).2.1 }

def RunLoop (s : AppState) (env : InitEnv) (events : List DispatchEvent)
    (closeOk : Bool) : AppState × Option ExitCode × List TraceAction :=
  let init := InitHandlers s env
  let run := runEvents (postInitState s env) events
  if run.1.exitCode = ExitCode.success then
    (run.1, none, init.2.2 ++ run.2)
  else
    (run.1, some run.1.exitCode,
     init.2.2 ++ run.2 ++ TraceAction.closeEnter ::
       (CloseHandlers run.1 closeOk ++
         (if run.1.exitCode = ExitCode.mainEventLoopSimReboot then
           [TraceAction.rebootPause 10]
         else [])))

/-- The external outcomes consumed by one `RunLoop` invocation. -/
structure RunCycle where
  env : InitEnv
  events : List DispatchEvent
  closeOk : Bool
deriving DecidableEq, Repr

/-- Model of the loop in `main` (main_a7.c lines 267-280): repeat `RunLoop`
while it returns the simulated-reboot status; any other returned status is
the final process exit status (`none` when the script ends with the process
still running). -/
def mainCycles : AppState → List RunCycle → AppState × Option ExitCode × List TraceAction
  | s, [] => (s, none, [])
  | s, c :: cs =>
    let r := RunLoop s c.env c.events c.closeOk
    match r.2.1 with
    | none => r
    | some code =>
      if code = ExitCode.mainEventLoopSimReboot then
        let rest := mainCycles r.1 cs
        (rest.1, rest.2.1, r.2.2 ++ rest.2.2)
      else (r.1, some code, r.2.2)

/-- An all-successful initialization environment connecting at descriptor
`fd`. -/
def allOkEnv (fd : Nat) : InitEnv :=
  { eventLoopOk := true, sendTimerOk := true, connectFd := some fd,
    setSockOptOk := true, registerIoOk := true }

/-- The messages written to the channel, in order, extracted from a trace. -/
def sentMessages (tr : List TraceAction) : List (List Char) :=
  tr.filterMap fun a =>
    match a with
    | .send msg _ => some msg
    | _ => none

/-- Once the shared status has left the success value, the dispatch loop
consumes no further events. -/
lemma runEvents_not_success {s : AppState} (h : ¬ s.exitCode = ExitCode.success)
    (es : List DispatchEvent) : runEvents s es = (s, []) := by
  cases es with
  | nil => rfl
  | cons e es => simp [runEvents, h]

/-- The trace of `InitHandlers` counts zero actions for any predicate that
rejects initialization steps. -/
lemma countP_InitHandlers (s : AppState) (env : InitEnv) (p : TraceAction → Bool)
    (hp : ∀ st, p (TraceAction.initStep st) = false) :
    ((InitHandlers s env).2.2).countP p = 0 := by
  rcases env with ⟨el, tm, cf, so, ri⟩
  cases el <;> cases tm <;> cases cf <;> cases so <;> cases ri <;>
    simp [InitHandlers, List.countP_cons, hp]

/-- The trace of one dispatched event counts zero actions for any predicate
that rejects send and receive-log actions. -/
lemma countP_stepEvent (s : AppState) (e : DispatchEvent) (p : TraceAction → Bool)
    (hsend : ∀ m ok, p (TraceAction.send m ok) = false)
    (hrecv : ∀ n, p (TraceAction.logReceived n) = false)
    (herr : p TraceAction.logRecvError = false) :
    ((stepEvent s e).2).countP p = 0 := by
  cases e with
  | timer consumeOk sendOk =>
    cases consumeOk with
    | false => simp [stepEvent, SendTimerEventHandler]
    | true =>
      cases sendOk <;>
        simp [stepEvent, SendTimerEventHandler, SendMessageToRTApp,
              List.countP_cons, hsend]
  | socket recvResult =>
    cases recvResult <;>
      simp [stepEvent, SocketEventHandler, List.countP_cons, hrecv, herr]
  | runFailed errnoVal =>
    by_cases h : errnoVal = EINTR <;> simp [stepEvent, h]
  | sigterm => simp [stepEvent]

/-- The trace of the dispatch loop counts zero actions for any predicate
that rejects send and receive-log actions. -/
lemma countP_runEvents (p : TraceAction → Bool)
    (hsend : ∀ m ok, p (TraceAction.send m ok) = false)
    (hrecv : ∀ n, p (TraceAction.logReceived n) = false)
    (herr : p TraceAction.logRecvError = false) :
    ∀ (es : List DispatchEvent) (s : AppState), ((runEvents s es).2).countP p = 0 := by
  intro es
  induction es with
  | nil => intro s; rfl
  | cons e es ih =>
    intro s
    by_cases h : s.exitCode = ExitCode.success
    · simp only [runEvents, if_pos h]
      rw [List.countP_append, ih, countP_stepEvent s e p hsend hrecv herr]
  
    · simp [runEvents, h]

/-- The trace of `CloseHandlers` counts zero actions for any predicate that
rejects cleanup operations and the close-error log. -/
lemma countP_CloseHandlers (s : AppState) (closeOk : Bool) (p : TraceAction → Bool)
    (hclean : ∀ c, p (TraceAction.cleanup c) = false)
    (hlog : p TraceAction.logCloseError = false) :
    ((CloseHandlers s closeOk).countP p) = 0 := by
  unfold CloseHandlers CloseFdAndPrintError
  split_ifs <;> simp [List.countP_append, List.countP_cons, hclean, hlog]

/-- The restart decision of `main`: a cycle whose returned status is not the
simulated-reboot value ends the process with that cycle's result. -/
lemma mainCycles_cons_stop {s : AppState} {c : RunCycle} {cs : List RunCycle}
    (h : ¬ (RunLoop s c.env c.events c.closeOk).2.1 = some ExitCode.mainEventLoopSimReboot) :
    mainCycles s (c :: cs) = RunLoop s c.env c.events c.closeOk := by
  cases hr : (RunLoop s c.env c.events c.closeOk).2.1 with
  | none => simp [mainCycles, hr]
  | some code =>
    have hc : ¬ code = ExitCode.mainEventLoopSimReboot := by
      intro hh
      exact h (by rw [hr, hh])
    simp only [mainCycles, hr, if_neg hc]
    rw [← hr]

/-- The restart decision of `main`: a cycle returning the simulated-reboot
status is followed by a fresh run of the remaining cycles, with the traces
concatenated. -/
lemma mainCycles_cons_reboot {s : AppState} {c : RunCycle} {cs : List RunCycle}
    (h : (RunLoop s c.env c.events c.closeOk).2.1 = some ExitCode.mainEventLoopSimReboot) :
    mainCycles s (c :: cs)
      = ((mainCycles (RunLoop s c.env c.events c.closeOk).1 cs).1,
         (mainCycles (RunLoop s c.env c.events c.closeOk).1 cs).2.1,
         (RunLoop s c.env c.events c.closeOk).2.2
           ++ (mainCycles (RunLoop s c.env c.events c.closeOk).1 cs).2.2) := by
  simp [mainCycles, h]

/-- The process exit status is never the simulated-reboot value: `main` only
leaves its loop on a different status. -/
lemma mainCycles_no_reboot_exit :
    ∀ (cs : List RunCycle) (s : AppState) (code : ExitCode),
      (mainCycles s cs).2.1 = some code → ¬ code = ExitCode.mainEventLoopSimReboot := by
  intro cs
  induction cs with
  | nil =>
    intro s code h
    simp [mainCycles] at h
  | cons c cs ih =>
    intro s code h
    by_cases hr : (RunLoop s c.env c.events c.closeOk).2.1 = some ExitCode.mainEventLoopSimReboot
    · rw [mainCycles_cons_reboot hr] at h
      exact ih _ _ h
    · rw [mainCycles_cons_stop hr] at h
      intro hcode
      exact hr (by rw [h, hcode])

/-- A cycle that terminates with the simulated-reboot status records the
fixed 10-second pause exactly once in its trace. -/
lemma RunLoop_reboot_trace {s : AppState} {env : InitEnv} {events : List DispatchEvent}
    {closeOk : Bool}
    (h : (RunLoop s env events closeOk).2.1 = some ExitCode.mainEventLoopSimReboot) :
    (RunLoop s env events closeOk).2.2.countP
      (fun a => a = TraceAction.rebootPause 10) = 1 := by
  simp only [RunLoop] at h ⊢
  by_cases hc : (runEvents (postInitState s env) events).1.exitCode = ExitCode.success
  · rw [if_pos hc] at h
    simp at h
  · rw [if_neg hc] at h
    rw [if_neg hc]
    have hcode :
        (runEvents (postInitState s env) events).1.exitCode
          = ExitCode.mainEventLoopSimReboot := by
      simpa using h
    rw [if_pos hcode]
    rw [List.countP_append, List.countP_append, List.countP_cons, List.countP_append,
        countP_InitHandlers _ _ _ (fun st => rfl),
        countP_runEvents _ (fun m ok => rfl) (fun k => rfl) rfl,
        countP_CloseHandlers _ _ _ (fun c => rfl) rfl]
    rfl

/-- C3: the simulated-reboot status is the only restarted condition. First,
the final process exit status is never the simulated-reboot value. Second, a
cycle that returns the simulated-reboot status records the fixed 10-second
pause in its trace and `main` re-runs the whole cycle, continuing from the
post-cycle state. Third, a cycle returning any other condition ends the
process with exactly that cycle's status as the exit status. -/
theorem c3 :
    (∀ (s : AppState) (cs : List RunCycle) (code : ExitCode),
        (mainCycles s cs).2.1 = some code →
          decide (code = ExitCode.mainEventLoopSimReboot) = false)
    ∧ (∀ (s : AppState) (c : RunCycle) (cs : List RunCycle),
        (RunLoop s c.env c.events c.closeOk).2.1 = some ExitCode.mainEventLoopSimReboot →
          ((RunLoop s c.env c.events c.closeOk).2.2.countP
              (fun a => a = TraceAction.rebootPause 10) = 1
            ∧ mainCycles s (c :: cs)
                = ((mainCycles (RunLoop s c.env c.events c.closeOk).1 cs).1,
                   (mainCycles (RunLoop s c.env c.events c.closeOk).1 cs).2.1,
                   (RunLoop s c.env c.events c.closeOk).2.2
                     ++ (mainCycles (RunLoop s c.env c.events c.closeOk).1 cs).2.2)))
    ∧ (∀ (s : AppState) (c : RunCycle) (cs : List RunCycle),
        decide ((RunLoop s c.env c.events c.closeOk).2.1
            = some ExitCode.mainEventLoopSimReboot) = false →
          mainCycles s (c :: cs) = RunLoop s c.env c.events c.closeOk) := by
  refine ⟨?_, ?_, ?_⟩
  · intro s cs code h
    exact decide_eq_false (mainCycles_no_reboot_exit cs s code h)
  · intro s c cs h
    exact ⟨RunLoop_reboot_trace h, mainCycles_cons_reboot h⟩
  · intro s c cs h
    exact mainCycles_cons_stop (of_decide_eq_false h)

/-- A cycle whose dispatch script sends once and then receives the exact
8-byte sentinel "reboot!!". -/
def rebootCycle : RunCycle :=
  ⟨allOkEnv 4, [DispatchEvent.timer true true, DispatchEvent.socket (some rebootSentinel)], true⟩

/-- A restarted cycle whose dispatch script sends one message. -/
def afterRebootCycle : RunCycle :=
  ⟨allOkEnv 4, [DispatchEvent.timer true true], true⟩

/-- C2 counterexample: starting from the cold-start state, one message is
sent (counter value 00) and the sentinel is received, so the cycle ends with
the simulated-reboot status; the state re-entering Initializing carries
Outbound Counter 1, not 0, and the restarted cycle's first sent message is
"hl-app-to-rt-app-adding01", not the counter-00 message. The `static`
counter of `SendMessageToRTApp` is not reset by the restart. -/
theorem c2_counterexample :
    (RunLoop initialAppState rebootCycle.env rebootCycle.events rebootCycle.closeOk).2.1
        = some ExitCode.mainEventLoopSimReboot
    ∧ (RunLoop initialAppState rebootCycle.env rebootCycle.events rebootCycle.closeOk).1.iter = 1
    ∧ decide ((1 : Nat) = 0) = false
    ∧ sentMessages (mainCycles initialAppState [rebootCycle, afterRebootCycle]).2.2
        = [txMessage 0, txMessage 1]
    ∧ decide (txMessage 1 = txMessage 0) = false := by
  decide

/-- C2 (amended): after a receive matching the reboot sentinel the cycle
ends with the simulated-reboot status, its trace records the fixed 10-second
pause, and `main` re-enters Initializing with a freshly opened Channel
Handle (the connect step runs again in the restarted cycle); but the
Outbound Counter keeps its value across the simulated reboot — for every
starting counter value `n`, the state at re-entry carries `(n + 1) % 100`
and the restarted cycle's first sent message is the one formatted for
`(n + 1) % 100`, not necessarily 00. -/
theorem c2_amended (n : Nat) :
    (RunLoop { initialAppState with iter := n } rebootCycle.env rebootCycle.events
        rebootCycle.closeOk).2.1 = some ExitCode.mainEventLoopSimReboot
    ∧ ((RunLoop { initialAppState with iter := n } rebootCycle.env rebootCycle.events
          rebootCycle.closeOk).2.2.countP
        (fun a => a = TraceAction.rebootPause 10)) = 1
    ∧ (RunLoop { initialAppState with iter := n } rebootCycle.env rebootCycle.events
        rebootCycle.closeOk).1.iter = (n + 1) % 100
    ∧ sentMessages (mainCycles { initialAppState with iter := n }
          [rebootCycle, afterRebootCycle]).2.2
        = [txMessage n, txMessage ((n + 1) % 100)]
    ∧ ((mainCycles { initialAppState with iter := n }
          [rebootCycle, afterRebootCycle]).2.2.countP
        (fun a => a = TraceAction.initStep InitStep.connect)) = 2 := by
  exact ⟨rfl, rfl, rfl, rfl, rfl⟩

/-- Witness for C3: a termination-request cycle ends the process with the
termination status (not a restart), and a sentinel cycle pauses and
restarts. -/
theorem c3_witness :
    decide (ExitCode.termHandlerSigTerm = ExitCode.mainEventLoopSimReboot) = false
    ∧ ((RunLoop initialAppState rebootCycle.env rebootCycle.events rebootCycle.closeOk).2.2.countP
          (fun a => a = TraceAction.rebootPause 10) = 1
        ∧ mainCycles initialAppState (rebootCycle :: [])
            = ((mainCycles (RunLoop initialAppState rebootCycle.env rebootCycle.events
                  rebootCycle.closeOk).1 []).1,
               (mainCycles (RunLoop initialAppState rebootCycle.env rebootCycle.events
                  rebootCycle.closeOk).1 []).2.1,
               (RunLoop initialAppState rebootCycle.env rebootCycle.events
                  rebootCycle.closeOk).2.2
                 ++ (mainCycles (RunLoop initialAppState rebootCycle.env rebootCycle.events
                      rebootCycle.closeOk).1 []).2.2))
    ∧ mainCycles initialAppState
          (⟨allOkEnv 4, [DispatchEvent.sigterm], true⟩ :: [])
        = RunLoop initialAppState (allOkEnv 4) [DispatchEvent.sigterm] true :=
  ⟨c3.1 initialAppState [⟨allOkEnv 4, [DispatchEvent.sigterm], true⟩]
      ExitCode.termHandlerSigTerm (by decide),
   c3.2.1 initialAppState rebootCycle [] (by decide),
   c3.2.2 initialAppState ⟨allOkEnv 4, [DispatchEvent.sigterm], true⟩ [] (by decide)⟩

/-- C4: a failed dispatcher wait with `errno = EINTR` leaves the Run Status
untouched and the loop continues exactly as if the wait had not failed; a
failed wait with any other `errno` sets the dispatch-failure status and the
loop exits without consuming further events. -/
theorem c4 (s : AppState) (events : List DispatchEvent) (errnoVal : Nat)
    (h : s.exitCode = ExitCode.success) :
    (errnoVal = EINTR →
        runEvents s (DispatchEvent.runFailed errnoVal :: events) = runEvents s events)
    ∧ (¬ errnoVal = EINTR →
        runEvents s (DispatchEvent.runFailed errnoVal :: events)
          = ({ s with exitCode := ExitCode.mainEventLoopFail }, [])) := by
  constructor
  · intro he
    simp only [runEvents, if_pos h, stepEvent, if_pos he]
    simp
  · intro he
    simp only [runEvents, if_pos h, stepEvent, if_neg he]
    rw [runEvents_not_success (by simp) events]
    rfl

/-- Witness for C4 at the cold-start state: `errno` 4 (`EINTR`) continues,
`errno` 9 fails the loop. -/
theorem c4_witness :
    runEvents initialAppState [DispatchEvent.runFailed 4] = runEvents initialAppState []
    ∧ runEvents initialAppState [DispatchEvent.runFailed 9]
        = ({ initialAppState with exitCode := ExitCode.mainEventLoopFail }, []) :=
  ⟨(c4 initialAppState [] 4 rfl).1 rfl, (c4 initialAppState [] 9 rfl).2 (by decide)⟩

/-- Count of the effective timer release in the `CloseHandlers` trace. -/
lemma CloseHandlers_count_disposeTimer (s : AppState) (closeOk : Bool) :
    (CloseHandlers s closeOk).countP
        (fun a => a = TraceAction.cleanup CleanupStep.disposeTimer)
      = if s.sendTimerCreated then 1 else 0 := by
  unfold CloseHandlers CloseFdAndPrintError
  split_ifs <;> rfl

/-- Count of the effective readiness-registration release in the
`CloseHandlers` trace. -/
lemma CloseHandlers_count_unregisterIo (s : AppState) (closeOk : Bool) :
    (CloseHandlers s closeOk).countP
        (fun a => a = TraceAction.cleanup CleanupStep.unregisterIo)
      = if s.socketRegCreated then 1 else 0 := by
  unfold CloseHandlers CloseFdAndPrintError
  split_ifs <;> rfl

/-- Count of the effective dispatcher release in the `CloseHandlers`
trace. -/
lemma CloseHandlers_count_closeEventLoop (s : AppState) (closeOk : Bool) :
    (CloseHandlers s closeOk).countP
        (fun a => a = TraceAction.cleanup CleanupStep.closeEventLoop)
      = if s.eventLoopCreated then 1 else 0 := by
  unfold CloseHandlers CloseFdAndPrintError
  split_ifs <;> rfl

/-- Count of the effective channel close in the `CloseHandlers` trace. -/
lemma CloseHandlers_count_closeFd (s : AppState) (closeOk : Bool) :
    (CloseHandlers s closeOk).countP
        (fun a => a = TraceAction.cleanup CleanupStep.closeFd)
      = if 0 ≤ s.sockFd then 1 else 0 := by
  unfold CloseHandlers CloseFdAndPrintError
  split_ifs <;> rfl

/-- The returned status of `RunLoop` does not depend on the result of the
channel `close`: close errors are logged, never escalated. -/
lemma RunLoop_code_closeOk (s : AppState) (env : InitEnv) (events : List DispatchEvent) :
    (RunLoop s env events true).2.1 = (RunLoop s env events false).2.1 := by
  simp only [RunLoop]
  by_cases hc : (runEvents (postInitState s env) events).1.exitCode = ExitCode.success
  · rw [if_pos hc, if_pos hc]
  · rw [if_neg hc, if_neg hc]


/-- C5: whenever a cycle terminates (with any terminal condition), the
shutdown step runs exactly once before `RunLoop` returns; the trace contains
the timer release, the readiness-registration release, the dispatcher
release and the channel close exactly when the corresponding resource
exists in the final state; and the returned status is independent of
whether the channel close succeeds (close errors are logged, not
escalated). -/
theorem c5 (s : AppState) (env : InitEnv) (events : List DispatchEvent) (closeOk : Bool)
    (hterm : ¬ (RunLoop s env events closeOk).2.1 = none) :
    ((RunLoop s env events closeOk).2.2.countP (fun a => a = TraceAction.closeEnter) = 1)
    ∧ ((RunLoop s env events closeOk).2.2.countP
          (fun a => a = TraceAction.cleanup CleanupStep.disposeTimer)
        = if (RunLoop s env events closeOk).1.sendTimerCreated then 1 else 0)
    ∧ ((RunLoop s env events closeOk).2.2.countP
          (fun a => a = TraceAction.cleanup CleanupStep.unregisterIo)
        = if (RunLoop s env events closeOk).1.socketRegCreated then 1 else 0)
    ∧ ((RunLoop s env events closeOk).2.2.countP
          (fun a => a = TraceAction.cleanup CleanupStep.closeEventLoop)
        = if (RunLoop s env events closeOk).1.eventLoopCreated then 1 else 0)
    ∧ ((RunLoop s env events closeOk).2.2.countP
          (fun a => a = TraceAction.cleanup CleanupStep.closeFd)
        = if 0 ≤ (RunLoop s env events closeOk).1.sockFd then 1 else 0)
    ∧ (RunLoop s env events true).2.1 = (RunLoop s env events false).2.1 := by
  simp only [RunLoop] at hterm ⊢
  by_cases hc : (runEvents (postInitState s env) events).1.exitCode = ExitCode.success
  · simp [if_pos hc] at hterm
  · simp only [if_neg hc]
    refine ⟨?_, ?_, ?_, ?_, ?_, True.intro⟩ <;>
      [skip;
       rw [List.countP_append, List.countP_append, List.countP_cons, List.countP_append,
         countP_InitHandlers _ _ _ (fun st => rfl),
         countP_runEvents _ (fun m ok => rfl) (fun k => rfl) rfl,
         CloseHandlers_count_disposeTimer];
       rw [List.countP_append, List.countP_append, List.countP_cons, List.countP_append,
         countP_InitHandlers _ _ _ (fun st => rfl),
         countP_runEvents _ (fun m ok => rfl) (fun k => rfl) rfl,
         CloseHandlers_count_unregisterIo];
       rw [List.countP_append, List.countP_append, List.countP_cons, List.countP_append,
         countP_InitHandlers _ _ _ (fun st => rfl),
         countP_runEvents _ (fun m ok => rfl) (fun k => rfl) rfl,
         CloseHandlers_count_closeEventLoop];
       rw [List.countP_append, List.countP_append, List.countP_cons, List.countP_append,
         countP_InitHandlers _ _ _ (fun st => rfl),
         countP_runEvents _ (fun m ok => rfl) (fun k => rfl) rfl,
         CloseHandlers_count_closeFd]] <;>
      [rw [List.countP_append, List.countP_append, List.countP_cons, List.countP_append,
         countP_InitHandlers _ _ _ (fun st => rfl),
         countP_runEvents _ (fun m ok => rfl) (fun k => rfl) rfl,
         countP_CloseHandlers _ _ _ (fun c => rfl) rfl];
       skip; skip; skip; skip] <;>
      by_cases hrb :
          (runEvents (postInitState s env) events).1.exitCode
            = ExitCode.mainEventLoopSimReboot <;>
      simp [hrb]

/-- Witness for C5: a run that terminates through a termination request. -/
theorem c5_witness :
    ((RunLoop initialAppState (allOkEnv 4) [DispatchEvent.sigterm] true).2.2.countP
        (fun a => a = TraceAction.closeEnter) = 1)
    ∧ ((RunLoop initialAppState (allOkEnv 4) [DispatchEvent.sigterm] true).2.2.countP
          (fun a => a = TraceAction.cleanup CleanupStep.disposeTimer)
        = if (RunLoop initialAppState (allOkEnv 4) [DispatchEvent.sigterm] true).1.sendTimerCreated
          then 1 else 0)
    ∧ ((RunLoop initialAppState (allOkEnv 4) [DispatchEvent.sigterm] true).2.2.countP
          (fun a => a = TraceAction.cleanup CleanupStep.unregisterIo)
        = if (RunLoop initialAppState (allOkEnv 4) [DispatchEvent.sigterm] true).1.socketRegCreated
          then 1 else 0)
    ∧ ((RunLoop initialAppState (allOkEnv 4) [DispatchEvent.sigterm] true).2.2.countP
          (fun a => a = TraceAction.cleanup CleanupStep.closeEventLoop)
        = if (RunLoop initialAppState (allOkEnv 4) [DispatchEvent.sigterm] true).1.eventLoopCreated
          then 1 else 0)
    ∧ ((RunLoop initialAppState (allOkEnv 4) [DispatchEvent.sigterm] true).2.2.countP
          (fun a => a = TraceAction.cleanup CleanupStep.closeFd)
        = if 0 ≤ (RunLoop initialAppState (allOkEnv 4) [DispatchEvent.sigterm] true).1.sockFd
          then 1 else 0)
    ∧ (RunLoop initialAppState (allOkEnv 4) [DispatchEvent.sigterm] true).2.1
        = (RunLoop initialAppState (allOkEnv 4) [DispatchEvent.sigterm] false).2.1 :=
  c5 initialAppState (allOkEnv 4) [DispatchEvent.sigterm] true (by decide)

/-- C6: when the channel connect step fails during Initializing (cold
start), only the dispatcher-creation, timer-creation and connect steps are
attempted — the socket-option and readiness-registration steps are not; the
cycle returns the channel-connect failure status; the shutdown trace
releases nothing that was never created (no readiness-registration release
and no channel close appear); and the process exits with the channel-connect
failure status without restarting. -/
theorem c6 (sso rio : Bool) (events : List DispatchEvent) (closeOk : Bool) :
    (InitHandlers initialAppState ⟨true, true, none, sso, rio⟩).2.2
        = [TraceAction.initStep InitStep.eventLoopCreate,
           TraceAction.initStep InitStep.sendTimerCreate,
           TraceAction.initStep InitStep.connect]
    ∧ (InitHandlers initialAppState ⟨true, true, none, sso, rio⟩).2.1
        = ExitCode.initConnection
    ∧ (RunLoop initialAppState ⟨true, true, none, sso, rio⟩ events closeOk).2.1
        = some ExitCode.initConnection
    ∧ ((RunLoop initialAppState ⟨true, true, none, sso, rio⟩ events closeOk).2.2.countP
          (fun a => a = TraceAction.initStep InitStep.setSockOpt)) = 0
    ∧ ((RunLoop initialAppState ⟨true, true, none, sso, rio⟩ events closeOk).2.2.countP
          (fun a => a = TraceAction.initStep InitStep.registerIo)) = 0
    ∧ ((RunLoop initialAppState ⟨true, true, none, sso, rio⟩ events closeOk).2.2.countP
          (fun a => a = TraceAction.cleanup CleanupStep.unregisterIo)) = 0
    ∧ ((RunLoop initialAppState ⟨true, true, none, sso, rio⟩ events closeOk).2.2.countP
          (fun a => a = TraceAction.cleanup CleanupStep.closeFd)) = 0
    ∧ (mainCycles initialAppState [⟨⟨true, true, none, sso, rio⟩, events, closeOk⟩]).2.1
        = some ExitCode.initConnection := by
  have h3 : runEvents (postInitState initialAppState ⟨true, true, none, sso, rio⟩) events
      = (postInitState initialAppState ⟨true, true, none, sso, rio⟩, []) :=
    runEvents_not_success (by simp [postInitState, InitHandlers]) events
  have hR : RunLoop initialAppState ⟨true, true, none, sso, rio⟩ events closeOk
      = ({ iter := 0, exitCode := ExitCode.initConnection, sockFd := -1,
           eventLoopCreated := true, sendTimerCreated := true, socketRegCreated := false },
         some ExitCode.initConnection,
         [TraceAction.initStep InitStep.eventLoopCreate,
          TraceAction.initStep InitStep.sendTimerCreate,
          TraceAction.initStep InitStep.connect,
          TraceAction.closeEnter,
          TraceAction.cleanup CleanupStep.disposeTimer,
          TraceAction.cleanup CleanupStep.closeEventLoop]) := by
    simp only [RunLoop, h3]
    rfl
  refine ⟨rfl, rfl, ?_, ?_, ?_, ?_, ?_, ?_⟩
  · rw [hR]
  · rw [hR]; rfl
  · rw [hR]; rfl
  · rw [hR]; rfl
  · rw [hR]; rfl
  · simp [mainCycles, hR]

/-- No message is ever written during the shutdown step. -/
lemma sentMessages_CloseHandlers (s : AppState) (closeOk : Bool) :
    sentMessages (CloseHandlers s closeOk) = [] := by
  unfold sentMessages CloseHandlers CloseFdAndPrintError
  split_ifs <;> rfl

lemma sentMessages_append (l1 l2 : List TraceAction) :
    sentMessages (l1 ++ l2) = sentMessages l1 ++ sentMessages l2 :=
  List.filterMap_append l1 l2 _

/-- No message is ever written between entering the shutdown step and the
end of a cycle. -/
lemma sentMessages_shutdown (s : AppState) (closeOk : Bool) (pa : List TraceAction)
    (hpa : sentMessages pa = []) :
    sentMessages (TraceAction.closeEnter :: (CloseHandlers s closeOk ++ pa)) = [] := by
  show sentMessages (CloseHandlers s closeOk ++ pa) = []
  rw [sentMessages_append, sentMessages_CloseHandlers, hpa]
  rfl

/-- C7: the termination capture writes the termination-request value into
the shared Run Status and changes nothing else; and when a termination
request arrives right after a successful Initializing, before any callback
fires, the cycle ends with the termination-request status, runs the
shutdown step exactly once, sends nothing, and the process exits with the
termination-request status without restarting. -/
theorem c7 (s : AppState) (fd : Nat) (events : List DispatchEvent) (closeOk : Bool) :
    (TerminationHandler s).exitCode = ExitCode.termHandlerSigTerm
    ∧ (TerminationHandler s).iter = s.iter
    ∧ (TerminationHandler s).sockFd = s.sockFd
    ∧ (TerminationHandler s).eventLoopCreated = s.eventLoopCreated
    ∧ (TerminationHandler s).sendTimerCreated = s.sendTimerCreated
    ∧ (TerminationHandler s).socketRegCreated = s.socketRegCreated
    ∧ (RunLoop s (allOkEnv fd) (DispatchEvent.sigterm :: events) closeOk).2.1
        = some ExitCode.termHandlerSigTerm
    ∧ ((RunLoop s (allOkEnv fd) (DispatchEvent.sigterm :: events) closeOk).2.2.countP
          (fun a => a = TraceAction.closeEnter)) = 1
    ∧ sentMessages (RunLoop s (allOkEnv fd) (DispatchEvent.sigterm :: events) closeOk).2.2 = []
    ∧ (mainCycles s [⟨allOkEnv fd, DispatchEvent.sigterm :: events, closeOk⟩]).2.1
        = some ExitCode.termHandlerSigTerm := by
  have h2 : runEvents (postInitState s (allOkEnv fd)) (DispatchEvent.sigterm :: events)
      = ({ iter := s.iter, exitCode := ExitCode.termHandlerSigTerm, sockFd := (fd : Int),
           eventLoopCreated := true, sendTimerCreated := true, socketRegCreated := true },
         []) := by
    have hstop :=
      runEvents_not_success
        (s := { iter := s.iter, exitCode := ExitCode.termHandlerSigTerm, sockFd := (fd : Int),
                eventLoopCreated := true, sendTimerCreated := true, socketRegCreated := true })
        (by simp) events
    simp [runEvents, stepEvent, TerminationHandler, postInitState, InitHandlers, allOkEnv, hstop]
  have hcode : (RunLoop s (allOkEnv fd) (DispatchEvent.sigterm :: events) closeOk).2.1
      = some ExitCode.termHandlerSigTerm := by
    simp [RunLoop, h2]
  have hcount : ((RunLoop s (allOkEnv fd) (DispatchEvent.sigterm :: events)
        closeOk).2.2.countP (fun a => a = TraceAction.closeEnter)) = 1 := by
    simp only [RunLoop, h2]
    rw [if_neg (by simp)]
    rw [List.countP_append, List.countP_append, List.countP_cons, List.countP_append,
        countP_InitHandlers _ _ _ (fun st => rfl),
        countP_CloseHandlers _ _ _ (fun c => rfl) rfl]
    simp
  have hsent : sentMessages (RunLoop s (allOkEnv fd)
        (DispatchEvent.sigterm :: events) closeOk).2.2 = [] := by
    simp only [RunLoop, h2]
    rw [if_neg (by simp)]
    rw [sentMessages_append, sentMessages_append,
      sentMessages_shutdown _ _
        (if ExitCode.termHandlerSigTerm = ExitCode.mainEventLoopSimReboot then
          [TraceAction.rebootPause 10] else []) rfl]
    rfl
  refine ⟨rfl, rfl, rfl, rfl, rfl, rfl, hcode, hcount, hsent, ?_⟩
  simp [mainCycles, hcode]

/-- C8: on every Message Sender invocation the written message is the one
formatted for the current Outbound Counter value and the counter is advanced
modulo 100; a successful write leaves the Run Status untouched; a failed
write sets the distinct send-failed status and — with no retry — the
dispatch loop terminates, consuming no further events. -/
theorem c8 (s : AppState) (events : List DispatchEvent) :
    (∀ ok, sentMessages (SendMessageToRTApp s ok).2 = [txMessage s.iter])
    ∧ (∀ ok, (SendMessageToRTApp s ok).1.iter = (s.iter + 1) % 100)
    ∧ (SendMessageToRTApp s true).1.exitCode = s.exitCode
    ∧ (SendMessageToRTApp s false).1.exitCode = ExitCode.sendMsgSend
    ∧ (s.exitCode = ExitCode.success →
        runEvents s (DispatchEvent.timer true false :: events)
          = ({ s with iter := (s.iter + 1) % 100, exitCode := ExitCode.sendMsgSend },
             [TraceAction.send (txMessage s.iter) false])) := by
  refine ⟨fun ok => by cases ok <;> rfl, fun ok => by cases ok <;> rfl, rfl, rfl, ?_⟩
  intro h
  simp only [runEvents, if_pos h, stepEvent, SendTimerEventHandler, if_pos rfl]
  rw [runEvents_not_success (by simp [SendMessageToRTApp]) events]
  simp [SendMessageToRTApp]

/-- Witness for C8 at the cold-start state: a failed send stops the loop
with the send-failed status after writing the counter-00 message. -/
theorem c8_witness :
    runEvents initialAppState [DispatchEvent.timer true false]
      = ({ initialAppState with iter := (initialAppState.iter + 1) % 100, exitCode := ExitCode.sendMsgSend },
         [TraceAction.send (txMessage initialAppState.iter) false]) :=
  (c8 initialAppState []).2.2.2.2 rfl

/-- The `%02d` rendering of every counter value below 100 is exactly the two
decimal digits of the value. -/
lemma pad2_two_digits :
    ∀ m, m < 100 → pad2 m = [Nat.digitChar (m / 10), Nat.digitChar (m % 10)] :=
  @of_decide_eq_true
    (∀ m, m < 100 → pad2 m = [Nat.digitChar (m / 10), Nat.digitChar (m % 10)])
    (Nat.decidableBallLT 100 _) (by rfl)

set_option maxRecDepth 4096 in
/-- C9: for every counter value `n` below 100 the outbound message is the
ASCII stem "hl-app-to-rt-app-adding" followed by the two-digit zero-padded
decimal rendering of `n`; each send advances the counter by 1 modulo 100;
and after 100 sends from the cold-start state the counter is back to 0. -/
theorem c9 (n : Nat) (h : n < 100) :
    txMessage n = txMessageStem ++ [Nat.digitChar (n / 10), Nat.digitChar (n % 10)]
    ∧ (∀ (s : AppState) (ok : Bool),
        (SendMessageToRTApp s ok).1.iter = (s.iter + 1) % 100)
    ∧ ((fun st => (SendMessageToRTApp st true).1)^[100] initialAppState).iter = 0 := by
  refine ⟨?_, fun s ok => by cases ok <;> rfl, by decide⟩
  unfold txMessage
  rw [pad2_two_digits n h]

/-- Witness for C9 at counter value 7. -/
theorem c9_witness :
    (7 : Nat) < 100
    ∧ (txMessage 7 = txMessageStem ++ [Nat.digitChar (7 / 10), Nat.digitChar (7 % 10)]
       ∧ (∀ (s : AppState) (ok : Bool),
           (SendMessageToRTApp s ok).1.iter = (s.iter + 1) % 100)
       ∧ ((fun st => (SendMessageToRTApp st true).1)^[100] initialAppState).iter = 0) :=
  ⟨by decide, c9 7 (by decide)⟩

/-- C10: a successful zero-byte read is a no-op event, not a disconnect: the
receive handler logs the byte count 0, never classifies the empty payload as
the reboot sentinel, leaves the whole state (including the Run Status)
unchanged, and the dispatch loop keeps consuming events. -/
theorem c10 (s : AppState) (events : List DispatchEvent) :
    SocketEventHandler s (some []) = (s, [TraceAction.logReceived 0])
    ∧ MsgParseIsReboot (some []) 0 = false
    ∧ (SocketEventHandler s (some [])).1.exitCode = s.exitCode
    ∧ (s.exitCode = ExitCode.success →
        runEvents s (DispatchEvent.socket (some []) :: events)
          = ((runEvents s events).1,
             TraceAction.logReceived 0 :: (runEvents s events).2)) := by
  refine ⟨rfl, rfl, rfl, ?_⟩
  intro h
  simp only [runEvents, if_pos h, stepEvent, SocketEventHandler]
  rfl

/-- Witness for C10 at the cold-start state. -/
theorem c10_witness :
    runEvents initialAppState [DispatchEvent.socket (some [])]
      = ((runEvents initialAppState []).1,
         TraceAction.logReceived 0 :: (runEvents initialAppState []).2) :=
  (c10 initialAppState []).2.2.2 rfl
